import Mathlib

/-!
Verification of the authentication module of this repository.

The repository ships two source files: `app/auth/redis.py` (the revocation
store client: `get_redis`, `add_to_blacklist`, `is_blacklisted`) and the
integration test suite `tests/integration/test_user_auth.py`.  The functions
of `redis.py` are embedded directly.  The `User` model, the `jwt` token
module and the `UserCreate` schema that the tests exercise are not part of
the shipped sources; where a claim depends on them they are modelled from
the specification (and pinned by the shipped tests), with doc comments
saying so.

Times are absolute integer timestamps (seconds); durations are integers so
that non-positive TTL values can be expressed.
-/

/-! ### Model of the external Redis store

The store is an external key-value cache.  We model the slice of Redis the
code uses: `SET key value EX seconds` and `EXISTS key`, with keys expiring
once their time-to-live has elapsed.  A state maps each key to the stored
value together with its absolute expiry time.  Redis rejects `SET ... EX n`
for `n <= 0` with an error and leaves the store untouched; a key counts as
existing while the current time is strictly before its expiry time.
-/

def RedisState : Type := String → Option (String × Int)

/-- Model of `SET key value EX ex` issued at absolute time `now`:
fails on a non-positive expire time, otherwise binds `key` to `value`
until `now + ex`. -/
def redisSetEx (st : RedisState) (now : Int) (key value : String) (ex : Int) :
    Except String RedisState :=
  if ex ≤ 0 then .error "invalid expire time"
  else .ok (fun k => if k = key then some (value, now + ex) else st k)

/-- Model of `EXISTS key` at absolute time `now`: the count of matching
live keys (0 or 1 here), a key being live while `now` is before its
expiry time. -/
def redisExists (st : RedisState) (now : Int) (key : String) : Nat :=
  match st key with
  | some (_, expireAt) => if now < expireAt then 1 else 0
  | none => 0

/-! ### The functions of `app/auth/redis.py` -/

/-- Embedding of `add_to_blacklist(jti, exp)`:
`await redis.set(f"blacklist:jti", "1", ex=exp)` with the jti interpolated
into the key. -/
def add_to_blacklist (st : RedisState) (now : Int) (jti : String) (exp : Int) :
    Except String RedisState :=
  redisSetEx st now ("blacklist:" ++ jti) "1" exp

/-- Embedding of `is_blacklisted(jti)`:
`await redis.exists(f"blacklist:jti") == 1`. -/
def is_blacklisted (st : RedisState) (now : Int) (jti : String) : Bool :=
  redisExists st now ("blacklist:" ++ jti) == 1

/-- The connection object built by `aioredis.from_url`; only the
constructor arguments are observable. -/
structure RedisClient where
  url : String
  encoding : String
  decode_responses : Bool
deriving Repr, DecidableEq

/-- Embedding of the Python expression
`settings.REDIS_URL or "redis://localhost:6379"`: the default is used when
the setting is absent or falsy (the empty string). -/
def redisUrlOrDefault (settingsRedisUrl : Option String) : String :=
  match settingsRedisUrl with
  | none => "redis://localhost:6379"
  | some s => if s = "" then "redis://localhost:6379" else s

/-- Embedding of `get_redis()` acting on the module state
`_redis_instance`.  The Python function is `async` but contains no `await`
between the `None` check and the assignment, so each call runs atomically
with respect to the event loop; we model one call as one atomic step
returning the client together with the new module state. -/
def get_redis (settingsRedisUrl : Option String) (inst : Option RedisClient) :
    RedisClient × Option RedisClient :=
  match inst with
  | some r => (r, some r)
  | none =>
      let r : RedisClient :=
        ⟨redisUrlOrDefault settingsRedisUrl, "utf-8", true⟩
      (r, some r)

/-- A serialization of `n` calls to `get_redis` (any interleaving of
concurrent callers serializes into such a sequence, each call being
atomic): returns the list of results and the final module state. -/
def runGetRedisCalls (settingsRedisUrl : Option String) :
    Nat → Option RedisClient → List RedisClient × Option RedisClient
  | 0, st => ([], st)
  | n + 1, st =>
      let (r, st1) := get_redis settingsRedisUrl st
      let (rs, st2) := runGetRedisCalls settingsRedisUrl n st1
      (r :: rs, st2)

/-! ### Token service (modelled from the spec)

The repository does not ship `app/auth/jwt.py` or the token methods of the
`User` model; only their tests are present.  The token service is therefore
modelled from the specification, section 4.3 and section 6: a token is a
signed compact structure carrying claims `sub`, `jti`, `iat`, `exp`;
verification returns the subject when the signature verifies, the required
claims are present, the current time is before `exp`, and the jti is not in
the revocation store, and returns the invalid result otherwise.
-/

/-- Modelled from the spec: the claims carried by a token payload.  Each
claim is optional so that payloads missing required fields can be
expressed. -/
structure TokenClaims where
  sub : Option String
  jti : Option String
  iat : Option Int
  exp : Option Int
deriving Repr, DecidableEq

/-- Injective encoding of an optional string claim. -/
def encodeOptStr (o : Option String) : String :=
  match o with
  | none => "-"
  | some s => "s" ++ s

/-- Injective encoding of an optional integer claim. -/
def encodeOptInt (o : Option Int) : String :=
  match o with
  | none => "-"
  | some i => "i" ++ toString i

/-- Serialization of a claims payload used by the signing model. -/
def encodeClaims (c : TokenClaims) : String :=
  encodeOptStr c.sub ++ "." ++ encodeOptStr c.jti ++ "." ++
    encodeOptInt c.iat ++ "." ++ encodeOptInt c.exp

/-- Modelled from the spec: the keyed signing operation of the token
service (a stand-in MAC over the secret and the serialized payload). -/
def signMac (secret : String) (c : TokenClaims) : Nat :=
  (secret ++ "|" ++ encodeClaims c).data.foldl
    (fun h ch => h * 31 + ch.toNat) 7

/-- A token string as seen by the verifier: either a well-formed compact
structure carrying a claims payload and a signature, or an arbitrary
string that does not parse (such as "invalid.token.string"). -/
inductive TokenString where
  | signed (claims : TokenClaims) (sig : Nat)
  | garbage (raw : String)
deriving Repr, DecidableEq

/-- Modelled from the spec: `create_access_token` / issue(sub, now, ttl)
sets issued-at to `now`, expires-at to `now + ttl`, carries the freshly
generated unique identifier `jti` (generation is ambient randomness, so
the identifier is a parameter here), and signs the payload with the
service secret. -/
def create_access_token (secret sub jti : String) (now ttl : Int) :
    TokenString :=
  let c : TokenClaims := ⟨some sub, some jti, some now, some (now + ttl)⟩
  .signed c (signMac secret c)

/-- Modelled from the spec: `verify_token` / verify(token, now) returns
the subject identifier, or `none` (the invalid result; the function is
total, so no exception is possible) when the token does not parse, the
signature does not match, a required claim (`sub`, `jti` or `exp`) is
missing, `now` is at or past expires-at, or the identifier is found in the
revocation store via `is_blacklisted`. -/
def verify_token (secret : String) (store : RedisState)
    (tok : TokenString) (now : Int) : Option String :=
  match tok with
  | .garbage _ => none
  | .signed c sig =>
      if sig = signMac secret c then
        match c.sub, c.jti, c.exp with
        | some sub, some jti, some exp =>
            if exp ≤ now then none
            else if is_blacklisted store now jti then none
            else some sub
        | _, _, _ => none
      else none

/-! ### Credential hasher (modelled from the spec)

`User.hash_password` and `User.verify_password` are not among the shipped
sources.  The hasher is modelled from the specification, section 4.2: a
salted one-way KDF whose salt is generated per call and embedded in the
output, with verify recomputing from the embedded salt.  The KDF digest is
modelled as an encoding injective in the password, standing in for a real
digest whose collisions are negligible.
-/

/-- Modelled from the spec: the KDF digest for a salt and a plaintext;
injective in the plaintext for a fixed salt. -/
def kdfDigest (salt : Nat) (plaintext : String) : String :=
  toString salt ++ "|" ++ plaintext

/-- A stored credential: the embedded salt together with the digest. -/
structure Credential where
  salt : Nat
  digest : String
deriving Repr, DecidableEq

/-- Modelled from the spec: `User.hash_password` with the per-call salt as
a parameter (ambient randomness). -/
def hash_password (salt : Nat) (plaintext : String) : Credential :=
  ⟨salt, kdfDigest salt plaintext⟩

/-- Modelled from the spec: `User.verify_password` recomputes the digest
from the embedded salt and compares; it returns false on any mismatch and
is total, so it never throws. -/
def verify_password (plaintext : String) (cred : Credential) : Bool :=
  cred.digest == kdfDigest cred.salt plaintext

/-! ### Schema-level password validation (modelled from the spec)

The `UserCreate` schema of `app/schemas/user.py` is not among the shipped
sources; only its test is.  Its password-strength validator is modelled
from the specification, section 4.1: at the schema layer a password must
have length at least 8 and contain at least one uppercase letter, one
lowercase letter, one digit, and one symbol from a defined
special-character set, and the error names the specific missing category.
The rules are checked in the order the specification lists them, the
length rule first, short-circuiting on the first failure; the shipped test
pins the words "uppercase", "lowercase", "digit" and "special character"
in the respective messages.
-/

/-- The defined special-character set of the schema validator. -/
def specialChars : String := "!@#$%^&*(),.?<>:;_-+="

/-- Membership in the special-character set. -/
def isSpecialChar (ch : Char) : Bool := specialChars.data.contains ch

/-- The password contains at least one uppercase letter. -/
def hasUpper (p : String) : Bool := p.data.any Char.isUpper

/-- The password contains at least one lowercase letter. -/
def hasLower (p : String) : Bool := p.data.any Char.isLower

/-- The password contains at least one digit. -/
def hasDigit (p : String) : Bool := p.data.any Char.isDigit

/-- The password contains at least one special character. -/
def hasSpecial (p : String) : Bool := p.data.any isSpecialChar

/-- Modelled from the spec: the password-strength validator of the
`UserCreate` schema. -/
def validate_password_strength (p : String) : Except String Unit :=
  if p.length < 8 then
    .error "Password must be at least 8 characters long"
  else if !hasUpper p then
    .error "Password must contain at least one uppercase letter"
  else if !hasLower p then
    .error "Password must contain at least one lowercase letter"
  else if !hasDigit p then
    .error "Password must contain at least one digit"
  else if !hasSpecial p then
    .error "Password must contain at least one special character"
  else .ok ()

/-! ### Registration (modelled from the spec)

`User.register` is not among the shipped sources; only its tests are.  It
is modelled from the specification, section 4.5 (run the password policy,
then hash, then insert; an insert that violates the uniqueness constraint
on username or email surfaces as one field-agnostic duplicate error), with
the registration-level minimum length 6 of section 4.1 and the exact error
messages pinned by the shipped tests ("Password must be at least 6
characters long", "Username or email already exists").  A missing password
field behaves as the empty string, as the shipped
`test_missing_password_registration` pins (the same minimum-length error).
The repository state is returned alongside the result so that an error
leaving it unchanged is expressible.
-/

/-- The registration input mapping; the password may be absent. -/
structure RegisterFields where
  first_name : String
  last_name : String
  email : String
  username : String
  password : Option String
deriving Repr, DecidableEq

/-- A persisted user record. -/
structure UserRecord where
  first_name : String
  last_name : String
  email : String
  username : String
  password : Credential
  is_active : Bool
  is_verified : Bool
deriving Repr, DecidableEq

/-- The user repository: the persisted records, with username and email
unique across them. -/
structure Db where
  users : List UserRecord
deriving Repr, DecidableEq

/-- Modelled from the spec: `User.register` with the per-call hashing salt
as a parameter.  Returns the outcome together with the repository state
after the call. -/
def register (db : Db) (salt : Nat) (f : RegisterFields) :
    Except String UserRecord × Db :=
  let pw := f.password.getD ""
  if pw.length < 6 then
    (.error "Password must be at least 6 characters long", db)
  else if db.users.any (fun u => u.email == f.email || u.username == f.username) then
    (.error "Username or email already exists", db)
  else
    let u : UserRecord :=
      ⟨f.first_name, f.last_name, f.email, f.username,
        hash_password salt pw, true, false⟩
    (.ok u, ⟨db.users ++ [u]⟩)

/-! ### Theorems about the revocation store client -/

/-- C1: for every token identifier jti and every positive ttl, calling
`add_to_blacklist jti ttl` sets the store key `blacklist:jti` to value
"1" with expiry ttl seconds, and afterwards `is_blacklisted jti` returns
true at any time before the ttl has elapsed and false at any time after
it has elapsed. -/
theorem revoke_then_is_revoked_until_ttl (st : RedisState) (now : Int)
    (jti : String) (ttl : Int) (h : 0 < ttl) :
    ∃ st2, add_to_blacklist st now jti ttl = .ok st2 ∧
      st2 ("blacklist:" ++ jti) = some ("1", now + ttl) ∧
      (∀ t : Int, t < now + ttl → is_blacklisted st2 t jti = true) ∧
      (∀ t : Int, now + ttl < t → is_blacklisted st2 t jti = false) := by
  refine ⟨fun k => if k = "blacklist:" ++ jti then some ("1", now + ttl)
    else st k, ?_, ?_, ?_, ?_⟩
  · simp [add_to_blacklist, redisSetEx, not_le.mpr h]
  · simp
  · intro t ht
    simp [is_blacklisted, redisExists, ht]
  · intro t ht
    simp [is_blacklisted, redisExists, not_lt.mpr (le_of_lt ht)]

/-- Witness for C1 at jti = "a", ttl = 5 from the empty store at time 0. -/
theorem revoke_then_is_revoked_until_ttl_witness :
    (0 : Int) < 5 ∧
      ∃ st2, add_to_blacklist (fun _ => none) 0 "a" 5 = .ok st2 ∧
        st2 ("blacklist:" ++ "a") = some ("1", 0 + 5) ∧
        (∀ t : Int, t < 0 + 5 → is_blacklisted st2 t "a" = true) ∧
        (∀ t : Int, 0 + 5 < t → is_blacklisted st2 t "a" = false) :=
  ⟨by decide, revoke_then_is_revoked_until_ttl (fun _ => none) 0 "a" 5 (by decide)⟩

/-- C2 counterexample: calling `add_to_blacklist` with ttl 0 is not a
no-op that does not fail; the store rejects the non-positive expire time
with an error. -/
theorem revoke_nonpositive_ttl_not_noop :
    add_to_blacklist (fun _ => none) 0 "x" 0 = .error "invalid expire time" := by
  simp [add_to_blacklist, redisSetEx]

/-- C2 amended: for every token identifier jti, calling `add_to_blacklist`
with a ttl less than or equal to 0 fails with the store error for an
invalid expire time (the code guards nothing and passes the ttl straight
to the store); no entry is created for jti and the store is unchanged. -/
theorem revoke_nonpositive_ttl_errors (st : RedisState) (now : Int)
    (jti : String) (exp : Int) (h : exp ≤ 0) :
    add_to_blacklist st now jti exp = .error "invalid expire time" := by
  simp [add_to_blacklist, redisSetEx, h]

/-- Witness for the amended C2 at jti = "x", ttl = 0. -/
theorem revoke_nonpositive_ttl_errors_witness :
    (0 : Int) ≤ 0 ∧
      add_to_blacklist (fun _ => none) 7 "x" 0 = .error "invalid expire time" :=
  ⟨by decide, revoke_nonpositive_ttl_errors (fun _ => none) 7 "x" 0 (by decide)⟩

/-- Helper: once the module state holds a client, every further call
returns exactly that client and leaves the state unchanged. -/
theorem runGetRedisCalls_some (u : Option String) (c : RedisClient) :
    ∀ m, runGetRedisCalls u m (some c) = (List.replicate m c, some c)
  | 0 => rfl
  | m + 1 => by
      simp [runGetRedisCalls, get_redis, runGetRedisCalls_some u c m,
        List.replicate]

/-- C9: the store connection is a process-wide singleton.  The first call
to `get_redis` creates the client and stores it; a call finding a stored
client returns it unchanged; and any serialization of n + 1 calls from the
uninitialized state (each call is atomic, since the function body has no
suspension point between the check and the assignment, covering concurrent
first use) returns the one client created by the first call, n + 1 times,
with the state fixed at that client thereafter. -/
theorem get_redis_singleton (u : Option String) (n : Nat) :
    (get_redis u none).2 = some (get_redis u none).1 ∧
    (∀ r, get_redis u (some r) = (r, some r)) ∧
    runGetRedisCalls u (n + 1) none =
      (List.replicate (n + 1) (get_redis u none).1,
        some (get_redis u none).1) := by
  refine ⟨rfl, fun r => rfl, ?_⟩
  simp [runGetRedisCalls, get_redis, runGetRedisCalls_some, List.replicate]

/-! ### Theorems about the token service -/

/-- C3: for every subject sub, time now and positive ttl, verifying a
token issued as `create_access_token secret sub jti now ttl` at time
`now` returns sub (provided its fresh identifier is not already in the
revocation store), and verifying the same token at time now + ttl + 1
returns the invalid result, whatever the store holds by then. -/
theorem issue_then_verify (secret sub jti : String) (store : RedisState)
    (now ttl : Int) (httl : 0 < ttl)
    (hfresh : is_blacklisted store now jti = false) :
    verify_token secret store (create_access_token secret sub jti now ttl)
        now = some sub ∧
    ∀ store2 : RedisState,
      verify_token secret store2
        (create_access_token secret sub jti now ttl) (now + ttl + 1) = none := by
  constructor
  · simp [verify_token, create_access_token, hfresh,
      show ¬ now + ttl ≤ now from by omega]
  · intro store2
    simp [verify_token, create_access_token,
      show now + ttl ≤ now + ttl + 1 from by omega]

/-- Witness for C3 at sub = "user123", now = 0, ttl = 60 over the empty
store. -/
theorem issue_then_verify_witness :
    (0 : Int) < 60 ∧
      is_blacklisted (fun _ => none) 0 "j" = false ∧
      (verify_token "k" (fun _ => none)
          (create_access_token "k" "user123" "j" 0 60) 0 = some "user123" ∧
        ∀ store2 : RedisState,
          verify_token "k" store2
            (create_access_token "k" "user123" "j" 0 60) (0 + 60 + 1) = none) :=
  ⟨by decide, rfl,
    issue_then_verify "k" "user123" "j" (fun _ => none) 0 60 (by decide) rfl⟩

/-- C4: `verify_token` is a total function (so it never raises), and it
returns the invalid result `none` on every structurally invalid input:
a string that does not parse, a signature that does not match the
payload, a payload missing a required claim, or an expired token. -/
theorem verify_invalid_token_returns_none (secret : String)
    (store : RedisState) (tok : TokenString) (now : Int)
    (h : (∃ raw, tok = TokenString.garbage raw) ∨
      (∃ c sig, tok = TokenString.signed c sig ∧ sig ≠ signMac secret c) ∨
      (∃ c sig, tok = TokenString.signed c sig ∧
        (c.sub = none ∨ c.jti = none ∨ c.exp = none)) ∨
      (∃ c sig e, tok = TokenString.signed c sig ∧
        c.exp = some e ∧ e ≤ now)) :
    verify_token secret store tok now = none := by
  rcases h with ⟨raw, rfl⟩ | ⟨c, sig, rfl, hsig⟩ | ⟨c, sig, rfl, hmiss⟩ |
    ⟨c, sig, e, rfl, hexp, hle⟩
  · rfl
  · simp [verify_token, hsig]
  · obtain ⟨s, j, i, x⟩ := c
    rcases hmiss with h1 | h1 | h1 <;> simp_all <;> simp [verify_token]
  · obtain ⟨s, j, i, x⟩ := c
    simp only at hexp
    subst hexp
    cases s <;> cases j <;> simp [verify_token, hle]

/-- Witness for C4 on the unparseable string of the shipped test. -/
theorem verify_invalid_token_returns_none_witness :
    (∃ raw, TokenString.garbage "invalid.token.string" =
        TokenString.garbage raw) ∧
      verify_token "k" (fun _ => none)
        (TokenString.garbage "invalid.token.string") 0 = none :=
  ⟨⟨"invalid.token.string", rfl⟩,
    verify_invalid_token_returns_none "k" (fun _ => none)
      (TokenString.garbage "invalid.token.string") 0
      (Or.inl ⟨"invalid.token.string", rfl⟩)⟩

/-! ### Theorems about the credential hasher -/

/-- Helper: appending on the left is cancellative for strings. -/
theorem string_append_left_cancel (a b c : String) (h : a ++ b = a ++ c) :
    b = c := by
  have hd : a.data ++ b.data = a.data ++ c.data := by
    simpa [String.data_append] using congrArg String.data h
  exact String.ext (List.append_cancel_left hd)

/-- C5: for every plaintext p, verifying p against its own hash succeeds;
for every wrong plaintext different from p, verification against the hash
of p fails (and, being a total function, never throws); and the stored
digest is never the plaintext itself. -/
theorem hash_verify_roundtrip (salt : Nat) (p wrong : String)
    (h : wrong ≠ p) :
    verify_password p (hash_password salt p) = true ∧
    verify_password wrong (hash_password salt p) = false ∧
    (hash_password salt p).digest ≠ p := by
  refine ⟨?_, ?_, ?_⟩
  · simp [verify_password, hash_password]
  · simp only [verify_password, hash_password]
    rw [beq_eq_false_iff_ne]
    intro hcontr
    have h1 : ("|" ++ wrong : String) = "|" ++ p :=
      string_append_left_cancel _ _ _
        (by simpa [kdfDigest, String.append_assoc] using hcontr.symm)
    exact h (string_append_left_cancel _ _ _ h1)
  · simp only [hash_password, kdfDigest]
    intro hcontr
    have hlen := congrArg String.length hcontr
    have hone : ("|" : String).length = 1 := rfl
    simp [String.length_append, hone] at hlen

/-- Witness for C5 at salt 12 with the plaintext and wrong password of the
shipped test. -/
theorem hash_verify_roundtrip_witness :
    ("WrongPass123" : String) ≠ "TestPass123" ∧
      (verify_password "TestPass123" (hash_password 12 "TestPass123") = true ∧
        verify_password "WrongPass123" (hash_password 12 "TestPass123") = false ∧
        (hash_password 12 "TestPass123").digest ≠ "TestPass123") :=
  ⟨by decide, hash_verify_roundtrip 12 "TestPass123" "WrongPass123" (by decide)⟩

/-! ### Theorems about schema-level password validation -/

/-- C7: for every password (meeting the schema length minimum) that
misses exactly one of the categories uppercase, lowercase, digit,
special character while satisfying the other three, the schema validator
fails with the error naming exactly that missing category. -/
theorem password_strength_reports_missing_category (p : String)
    (hlen : 8 ≤ p.length) :
    (hasUpper p = false → hasLower p = true → hasDigit p = true →
      hasSpecial p = true →
      validate_password_strength p =
        .error "Password must contain at least one uppercase letter") ∧
    (hasUpper p = true → hasLower p = false → hasDigit p = true →
      hasSpecial p = true →
      validate_password_strength p =
        .error "Password must contain at least one lowercase letter") ∧
    (hasUpper p = true → hasLower p = true → hasDigit p = false →
      hasSpecial p = true →
      validate_password_strength p =
        .error "Password must contain at least one digit") ∧
    (hasUpper p = true → hasLower p = true → hasDigit p = true →
      hasSpecial p = false →
      validate_password_strength p =
        .error "Password must contain at least one special character") := by
  have hlt : ¬ p.length < 8 := not_lt.mpr hlen
  refine ⟨?_, ?_, ?_, ?_⟩ <;> intro h1 h2 h3 h4 <;>
    simp [validate_password_strength, hlt, h1, h2, h3, h4]

/-- Witness for C7 on the all-lowercase password of the shipped test. -/
theorem password_strength_reports_missing_category_witness :
    8 ≤ ("weakpass1!" : String).length ∧
      validate_password_strength "weakpass1!" =
        .error "Password must contain at least one uppercase letter" :=
  ⟨by decide,
    (password_strength_reports_missing_category "weakpass1!" (by decide)).1
      (by decide) (by decide) (by decide) (by decide)⟩

/-! ### Theorems about registration -/

/-- C8: registering with any password shorter than 6 characters fails
with the minimum-length policy error and leaves the repository unchanged,
so no user is created. -/
theorem register_short_password_rejected (db : Db) (salt : Nat)
    (f : RegisterFields) (h : (f.password.getD "").length < 6) :
    register db salt f =
      (.error "Password must be at least 6 characters long", db) := by
  simp [register, h]

/-- Witness for C8 on the 5-character password "Shor1" of the shipped
test. -/
theorem register_short_password_rejected_witness :
    (((RegisterFields.mk "Password" "Test" "short.pass@example.com"
        "shortpass" (some "Shor1")).password.getD "").length < 6) ∧
      register ⟨[]⟩ 0 (RegisterFields.mk "Password" "Test"
          "short.pass@example.com" "shortpass" (some "Shor1")) =
        (.error "Password must be at least 6 characters long", ⟨[]⟩) :=
  ⟨by decide,
    register_short_password_rejected ⟨[]⟩ 0
      (RegisterFields.mk "Password" "Test" "short.pass@example.com"
        "shortpass" (some "Shor1")) (by decide)⟩

/-- C10: registering with a fields mapping holding no password at all
fails with the same minimum-length error as a too-short password (the
absent password behaves as the empty string), not a distinct
missing-field error, and leaves the repository unchanged. -/
theorem register_missing_password_min_length_error (db : Db) (salt : Nat)
    (f : RegisterFields) (h : f.password = none) :
    register db salt f =
      (.error "Password must be at least 6 characters long", db) := by
  have h0 : ("" : String).length < 6 := by decide
  simp [register, h, h0]

/-- Witness for C10 on the password-free fields of the shipped test. -/
theorem register_missing_password_min_length_error_witness :
    ((RegisterFields.mk "NoPassword" "Test" "no.password@example.com"
        "nopassworduser" none).password = none) ∧
      register ⟨[]⟩ 0 (RegisterFields.mk "NoPassword" "Test"
          "no.password@example.com" "nopassworduser" none) =
        (.error "Password must be at least 6 characters long", ⟨[]⟩) :=
  ⟨rfl,
    register_missing_password_min_length_error ⟨[]⟩ 0
      (RegisterFields.mk "NoPassword" "Test" "no.password@example.com"
        "nopassworduser" none) rfl⟩

/-- The already-registered user of the duplicate-registration test. -/
def existingUser1 : UserRecord :=
  ⟨"Test", "User1", "unique.test@example.com", "uniqueuser1",
    ⟨0, "d"⟩, true, false⟩

/-- The second registration attempt of the duplicate-registration test,
reusing the email of `existingUser1`. -/
def duplicateEmailFields : RegisterFields :=
  ⟨"Test", "User2", "unique.test@example.com", "uniqueuser2",
    some "TestPass123"⟩

/-- C6 counterexample: the duplicate-registration error message is
"Username or email already exists" with a capital U, as the shipped tests
pin, not the claimed all-lowercase "username or email already exists". -/
theorem register_duplicate_message_counterexample :
    register ⟨[existingUser1]⟩ 0 duplicateEmailFields =
      (.error "Username or email already exists", ⟨[existingUser1]⟩) ∧
      "Username or email already exists" ≠
        "username or email already exists" := by
  constructor
  · rfl
  · decide

/-- C6 amended: every registration attempt whose email duplicates an
existing record and every attempt whose username duplicates an existing
record (the password itself passing the length policy) fails with the
one field-agnostic duplicate error, message "Username or email already
exists", without distinguishing which field collided. -/
theorem register_duplicate_single_error (db : Db) (salt : Nat)
    (f : RegisterFields)
    (hpw : ¬ (f.password.getD "").length < 6)
    (hdup : ∃ u ∈ db.users, u.email = f.email ∨ u.username = f.username) :
    register db salt f =
      (.error "Username or email already exists", db) := by
  have hany : db.users.any
      (fun u => u.email == f.email || u.username == f.username) = true := by
    obtain ⟨u, hu, hor⟩ := hdup
    refine List.any_eq_true.mpr ⟨u, hu, ?_⟩
    rcases hor with h | h <;> simp [h]
  simp [register, hpw, hany]

/-- Witness for the amended C6 on the duplicate-email scenario of the
shipped test. -/
theorem register_duplicate_single_error_witness :
    (¬ (duplicateEmailFields.password.getD "").length < 6) ∧
      (∃ u ∈ (Db.mk [existingUser1]).users,
        u.email = duplicateEmailFields.email ∨
          u.username = duplicateEmailFields.username) ∧
      register ⟨[existingUser1]⟩ 0 duplicateEmailFields =
        (.error "Username or email already exists", ⟨[existingUser1]⟩) :=
  ⟨by decide, ⟨existingUser1, by simp, Or.inl rfl⟩,
    register_duplicate_single_error ⟨[existingUser1]⟩ 0 duplicateEmailFields
      (by decide) ⟨existingUser1, by simp, Or.inl rfl⟩⟩
